import Mathlib

/-
  Verification of the shader-program lifecycle and uniform reflection or
  persistence engine of the ShaderMaker repository.

  Shallow embedding of:
    - CUniform                (src/ShaderMaker_src/src/uniform.cpp, uniform.h)
    - CShader                 (shader.cpp, found inside
                               src/ShaderMaker_src/src/universalslider.cpp after
                               the file separator; declarations in shader.h)
    - VertexAttribLocations   (application.h, src/unnamed/part_007)

  Modelling conventions:
    - C floats are modelled as rationals.  The data union of CUniform holds
      16 floats overlapped with 4 ints; the constructor and every code path
      the claims observe write the payload only through memset (all bytes
      zero) and through the float view, so the payload is modelled as the
      list of its 16 float cells.  "all-zero payload" is then the list of
      16 zeros, which coincides with the memset state.
    - OpenGL is modelled as an oracle structure Driver holding the answers
      the GL returns to each query of one compileAndLink attempt.  The
      field validateFault models a driver exception thrown inside
      glValidateProgram; the try/catch of CShader::compileAndLink is
      modelled with Except.  Calls that only transfer data to the driver
      (glAttachShader, glProgramParameteriEXT, applyToGL pushes,
      glDeleteProgram, glUseProgram) have no observable effect on the
      CShader state and are noted in comments.
    - QString is modelled as String; QVector as List.
    - The build log m_log is a QString built by appending formatted
      pieces; it is modelled as the list of the appended pieces, in order.
-/

namespace ShaderMaker

/-! OpenGL symbolic constants, values as fixed by the OpenGL headers. -/

def GL_FLOAT : Int := 0x1406
def GL_INT : Int := 0x1404
def GL_FLOAT_VEC2 : Int := 0x8B50
def GL_FLOAT_VEC3 : Int := 0x8B51
def GL_FLOAT_VEC4 : Int := 0x8B52
def GL_INT_VEC2 : Int := 0x8B53
def GL_INT_VEC3 : Int := 0x8B54
def GL_INT_VEC4 : Int := 0x8B55
def GL_BOOL : Int := 0x8B56
def GL_BOOL_VEC2 : Int := 0x8B57
def GL_BOOL_VEC3 : Int := 0x8B58
def GL_BOOL_VEC4 : Int := 0x8B59
def GL_FLOAT_MAT2 : Int := 0x8B5A
def GL_FLOAT_MAT3 : Int := 0x8B5B
def GL_FLOAT_MAT4 : Int := 0x8B5C
def GL_SAMPLER_1D : Int := 0x8B5D
def GL_SAMPLER_2D : Int := 0x8B5E
def GL_SAMPLER_3D : Int := 0x8B5F
def GL_SAMPLER_CUBE : Int := 0x8B60
def GL_SAMPLER_1D_SHADOW : Int := 0x8B61
def GL_SAMPLER_2D_SHADOW : Int := 0x8B62

/-! Shader stage symbols from the shaderType_e enum of shader.h. -/

def TYPE_VERTEX : Nat := 0
def TYPE_GEOMETRY : Nat := 1
def TYPE_FRAGMENT : Nat := 2
def MAX_SHADER_TYPES : Nat := 3

/-- One uniform variable: name, GL type tag, location, and the float view
of the 16-cell data union (m_data._float), in column-major order for
matrices. -/
structure CUniform where
  name : String
  type : Int
  location : Int
  data : List ℚ
  deriving Repr, DecidableEq

/-- CUniform::CUniform( const QString & name, int type, int location ).
Embeds the constructor of uniform.cpp line by line:
memset zeroes the union, GL_FLOAT gets 0.1 in cell 0, then the condition

  if ( m_type == GL_FLOAT_VEC2 || GL_FLOAT_VEC3 || GL_FLOAT_VEC4 )

is embedded exactly as C evaluates it: the second and third operands are
the integer constants themselves, tested for being nonzero, so the branch
is entered for every type; finally the three matrix cases set their
diagonal cells to one. -/
def mkCUniform (name : String) (type : Int) (location : Int) : CUniform :=
  let d : List ℚ := List.replicate 16 0
  let d := if type = GL_FLOAT then d.set 0 (mkRat 1 10) else d
  let d := if type = GL_FLOAT_VEC2 ∨ GL_FLOAT_VEC3 ≠ 0 ∨ GL_FLOAT_VEC4 ≠ 0 then
      (((d.set 0 (mkRat 1 10)).set 1 (mkRat 2 10)).set 2 (mkRat 3 10)).set 3 (mkRat 4 10)
    else d
  let d := if type = GL_FLOAT_MAT2 then (d.set 0 1).set 3 1 else d
  let d := if type = GL_FLOAT_MAT3 then ((d.set 0 1).set 4 1).set 8 1 else d
  let d := if type = GL_FLOAT_MAT4 then (((d.set 0 1).set 5 1).set 10 1).set 15 1 else d
  ⟨name, type, location, d⟩

/-- CUniform::CUniform( const CUniform & u, int location ): copies name,
type and the whole data union, overriding the location. -/
def CUniform.withLocation (u : CUniform) (location : Int) : CUniform :=
  ⟨u.name, u.type, location, u.data⟩

/-- The default-constructed CUniform: all three constructor arguments
default to QString(), 0 and -1 in uniform.h. -/
def CUniform.mkDefault : CUniform := mkCUniform "" 0 (-1)

/-- CUniform::setValueAsFloat: stores a value in one float cell. -/
def CUniform.setValueAsFloat (u : CUniform) (component : Nat) (value : ℚ) : CUniform :=
  { u with data := u.data.set component value }

/-- Locations of the custom vertex attributes (application.h); the
default constructor uses the -1 sentinel for both. -/
structure VertexAttribLocations where
  tangent : Int
  bitangent : Int
  deriving Repr, DecidableEq

def VertexAttribLocations.empty : VertexAttribLocations := ⟨-1, -1⟩

/-- Oracle for the OpenGL driver: the answers the GL returns to the
queries of one compileAndLink attempt, indexed where needed by the stage
that asks.  validateFault models a driver exception thrown from inside
glValidateProgram (after the link status was read), the situation the
try/catch of CShader::compileAndLink exists for. -/
structure Driver where
  createProgramResult : Nat
  createShaderResult : Nat → Nat
  shaderInfoLog : Nat → String
  compileStatus : Nat → Bool
  linkInfoLog : String
  linkStatus : Bool
  validateFault : Bool
  validateStatus : Bool
  validateInfoLog : String
  attribLocation : String → Int
  activeUniformCount : Nat
  activeUniformName : Nat → String
  activeUniformType : Nat → Int
  activeUniformLocation : Nat → Int
  uniformsLogText : String
  attributesLogText : String

/-- The CShader member state observed by the claims.  The geometry
program parameters (m_num_output, m_geometryInputType,
m_geometryOutputType) only flow to the driver in setupProgramParameters
and are omitted; m_timer is modelled by passing the elapsed milliseconds
to bindState. -/
structure ShaderState where
  activeUniforms : List CUniform
  oldUniforms : List CUniform
  geometryShaderAvailable : Bool
  linked : Bool
  log : List String
  attribLocations : VertexAttribLocations
  shaderSources : List String
  shaders : List Nat
  program : Nat
  deriving Repr, DecidableEq

/-- CShader::CShader: empty uniform lists, no program, not linked, empty
sources and logs, attribute record default-constructed. -/
def initialShaderState : ShaderState :=
  ⟨[], [], false, false, [], VertexAttribLocations.empty, ["", "", ""], [0, 0, 0], 0⟩

/-- CShader::deactivateProgram: clears the linked flag and the attribute
record, releases the program and all shader handles (glUseProgram(0),
glDeleteProgram and glDeleteShader are driver-side).  Does not touch the
shader sources. -/
def deactivateProgram (s : ShaderState) : ShaderState :=
  { s with linked := false
         , attribLocations := VertexAttribLocations.empty
         , program := 0
         , shaders := [0, 0, 0] }

/-- CShader::isShaderTypeAvailable. -/
def isShaderTypeAvailable (s : ShaderState) (t : Nat) : Bool :=
  if t = TYPE_VERTEX ∨ t = TYPE_FRAGMENT then true
  else if t = TYPE_GEOMETRY then s.geometryShaderAvailable
  else false

/-- IShader::getShaderTypeName. -/
def getShaderTypeName (t : Nat) : String :=
  if t = TYPE_VERTEX then "Vertex Shader"
  else if t = TYPE_GEOMETRY then "Geometry Shader"
  else if t = TYPE_FRAGMENT then "Fragment Shader"
  else "<bad shader type>"

/-- A stage is attempted by compileAndAttachShader when the platform
supports it and its stored source is nonempty. -/
def attemptedStage (s : ShaderState) (i : Nat) : Bool :=
  isShaderTypeAvailable s i && !(s.shaderSources.getD i "").isEmpty

/-- CShader::compileAndAttachShader: skips unsupported stages and stages
with empty source (result true), otherwise logs the stage header, creates
the shader object, compiles, appends the compiler info log and returns
the compile status (glAttachShader on success is driver-side). -/
def compileAndAttachShader (d : Driver) (i : Nat) (s : ShaderState) :
    Bool × ShaderState :=
  if ¬ isShaderTypeAvailable s i then (true, s)
  else if (s.shaderSources.getD i "").isEmpty then (true, s)
  else
    let s := { s with log := s.log ++ ["Compiling " ++ getShaderTypeName i ++ "\n"] }
    let h := d.createShaderResult i
    if h = 0 then
      (false, { s with log := s.log ++
        ["ERROR: failed on glCreateShader( " ++ getShaderTypeName i ++ " )\n"] })
    else
      let s := { s with shaders := s.shaders.set i h }
      let s := { s with log := s.log ++ [d.shaderInfoLog i ++ "\n"] }
      if d.compileStatus i then (true, s) else (false, s)

/-- CShader::linkAndValidateProgram: logs the link header, sets the
geometry program parameters (driver-side), links, appends the link info
log, stores the link status into m_linked, validates, appends the
validation verdict and log, restarts the timer, queries the two custom
attribute locations and appends the active-uniform and active-attribute
log sections; returns m_linked.  A driver fault thrown by
glValidateProgram escapes with the state as written so far. -/
def linkAndValidateProgram (d : Driver) (s : ShaderState) :
    Except ShaderState (Bool × ShaderState) :=
  let s := { s with log := s.log ++ ["Linking...\n"] }
  let s := { s with log := s.log ++ [d.linkInfoLog ++ "\n\n"] }
  let s := { s with linked := d.linkStatus }
  if d.validateFault then Except.error s
  else
    let s := { s with log := s.log ++
      ["Validation: " ++ (if d.validateStatus then "succeeded" else "failed") ++ "\n"] }
    let s := { s with log := s.log ++ [d.validateInfoLog ++ "\n"] }
    let s := { s with log := s.log ++ ["\n"] }
    let s := { s with attribLocations :=
      ⟨d.attribLocation "attrTangent", d.attribLocation "attrBitangent"⟩ }
    let s := { s with log := s.log ++ [d.uniformsLogText, d.attributesLogText] }
    Except.ok (s.linked, s)

/-- CShader::setupInitialUniforms: reflects the active-uniform list into
freshly constructed CUniform objects, saves the previous list into
m_oldUniforms and replaces m_activeUniforms. -/
def setupInitialUniforms (d : Driver) (s : ShaderState) : ShaderState :=
  let uniforms := (List.range d.activeUniformCount).map fun i =>
    mkCUniform (d.activeUniformName i) (d.activeUniformType i) (d.activeUniformLocation i)
  { s with oldUniforms := s.activeUniforms, activeUniforms := uniforms }

/-- The inner loop of CShader::setupRememberedUniformState for one old
entry: every entry of the table with equal name (case-sensitive compare)
and equal type is replaced by a copy of the old entry carrying the new
entry's own location.  There is no break, so every match is replaced. -/
def migrateFromOld (old : CUniform) (table : List CUniform) : List CUniform :=
  table.map fun neu =>
    if old.name = neu.name ∧ old.type = neu.type then CUniform.withLocation old neu.location
    else neu

/-- CShader::setupRememberedUniformState: the outer loop over
m_oldUniforms, each iteration running the inner scan over the current
m_activeUniforms. -/
def setupRememberedUniformState (oldTable table : List CUniform) : List CUniform :=
  oldTable.foldl (fun acc old => migrateFromOld old acc) table

/-- The stage loop of CShader::compileAndLink2: all three stages are
attempted in order and the results are conjoined; no early abort. -/
def runStages (d : Driver) (s : ShaderState) : Bool × ShaderState :=
  let p0 := compileAndAttachShader d 0 s
  let p1 := compileAndAttachShader d 1 p0.2
  let p2 := compileAndAttachShader d 2 p1.2
  (p0.1 && p1.1 && p2.1, p2.2)

/-- The state at the top of compileAndLink2 once the program object
exists: previous program torn down, log reset, new program handle
stored. -/
def preStageState (d : Driver) (s : ShaderState) : ShaderState :=
  { deactivateProgram s with log := [], program := d.createProgramResult }

/-- The post-processing of a fully successful attempt: reflect the new
uniform table (saving the previous one) and migrate the remembered
values into it. -/
def postSuccessState (d : Driver) (s : ShaderState) : ShaderState :=
  let s2 := setupInitialUniforms d s
  { s2 with activeUniforms := setupRememberedUniformState s2.oldUniforms s2.activeUniforms }

/-- CShader::compileAndLink2: tears the previous program down, resets the
log, creates a program object, runs the stage loop, links and validates
only when every stage compiled, and on total success reflects the new
uniform table and migrates the remembered values into it. -/
def compileAndLink2 (d : Driver) (s : ShaderState) :
    Except ShaderState (Bool × ShaderState) :=
  if d.createProgramResult = 0 then
    Except.ok (false,
      { deactivateProgram s with log := ["ERROR: Failed on glCreateProgram()\n"] })
  else
    let res := runStages d (preStageState d s)
    if res.1 then
      match linkAndValidateProgram d res.2 with
      | Except.error sE => Except.error sE
      | Except.ok (r, s4) =>
        if r then Except.ok (true, postSuccessState d s4)
        else Except.ok (false, s4)
    else Except.ok (false, res.2)

/-- The log text assigned by the catch block of CShader::compileAndLink
(assignment, not append: it replaces the whole log). -/
def criticalErrorLog : List String :=
  ["*** CRITICAL ERROR ***\n\n  There was an exception thrown by the OpenGL driver!\n  You should immediately restart the editor!\n\nCheck your sources for things like unresolved symbols.\nMissing varying variables can cause trouble too.\n\nExample:\n\nvarying vec3 notDefinedInVertexShader;\nfloat foo(); // nowhere implemented\n\nvec3 bar()\n\x7b\n    return notDefinedInVertexShader * foo();\n\x7d\n\n"]

/-- CShader::compileAndLink: the fault boundary around compileAndLink2.
A driver exception yields result false and replaces the log with the
critical message; no other member is touched by the catch block. -/
def compileAndLink (d : Driver) (s : ShaderState) : Bool × ShaderState :=
  match compileAndLink2 d s with
  | Except.ok rs => rs
  | Except.error sE => (false, { sE with log := criticalErrorLog })

/-- QString("time").compare( name, Qt::CaseInsensitive ) == 0, modelled
as equality of the character lists after lowercasing. -/
def caseInsensitiveEq (a b : String) : Bool :=
  a.data.map Char.toLower == b.data.map Char.toLower

/-- CShader::updateTimeVariable: a GL_FLOAT uniform whose name equals
"time" case-insensitively gets its component 0 overwritten with the
elapsed milliseconds times 0.001. -/
def updateTimeVariable (elapsedMillis : ℚ) (u : CUniform) : CUniform :=
  if u.type = GL_FLOAT ∧ caseInsensitiveEq "time" u.name = true then
    u.setValueAsFloat 0 (elapsedMillis * (1/1000))
  else u

/-- CShader::bindState: with a program and the linked flag set it uses
the program, hands out the stored attribute record, refreshes the time
variable in every stored uniform and pushes each one to the driver
(applyToGL is driver-side); otherwise it deactivates any program on the
driver and returns false with the empty attribute record. -/
def bindState (s : ShaderState) (elapsedMillis : ℚ) :
    Bool × VertexAttribLocations × ShaderState :=
  if s.program ≠ 0 ∧ s.linked = true then
    (true, s.attribLocations,
     { s with activeUniforms := s.activeUniforms.map (updateTimeVariable elapsedMillis) })
  else
    (false, VertexAttribLocations.empty, s)

/-- CShader::setUniform: rejected when not linked or the index is out of
range, or when the stored entry at that index differs from the supplied
value in name, type or location; otherwise the entry is replaced. -/
def setUniform (s : ShaderState) (index : Int) (u : CUniform) : ShaderState :=
  if ¬ s.linked = true ∨ index < 0 ∨ (s.activeUniforms.length : Int) ≤ index then s
  else
    let u2 := s.activeUniforms.getD index.toNat CUniform.mkDefault
    if u2.name ≠ u.name ∨ u2.type ≠ u.type ∨ u2.location ≠ u.location then s
    else { s with activeUniforms := s.activeUniforms.set index.toNat u }

/-- CShader::getActiveUniforms: 0 when not linked, else the table size. -/
def getActiveUniforms (s : ShaderState) : Int :=
  if ¬ s.linked = true then 0 else (s.activeUniforms.length : Int)

/-- CShader::getUniform: the stored entry when linked and in range, else
a default-constructed CUniform. -/
def getUniform (s : ShaderState) (index : Int) : CUniform :=
  if s.linked = true ∧ 0 ≤ index ∧ index < (s.activeUniforms.length : Int) then
    s.activeUniforms.getD index.toNat CUniform.mkDefault
  else CUniform.mkDefault

/-- CShader::setShaderSource: stores the source verbatim for a stage
index in range; no driver effect. -/
def setShaderSource (s : ShaderState) (shaderType : Int) (src : String) : ShaderState :=
  if 0 ≤ shaderType ∧ shaderType < (MAX_SHADER_TYPES : Int) then
    { s with shaderSources := s.shaderSources.set shaderType.toNat src }
  else s

/-! Concrete driver oracles and states used by witnesses and
counterexamples. -/

/-- A driver on which every step of an attempt succeeds. -/
def allOkDriver : Driver where
  createProgramResult := 1
  createShaderResult := fun i => i + 2
  shaderInfoLog := fun _ => "compile log"
  compileStatus := fun _ => true
  linkInfoLog := "link log"
  linkStatus := true
  validateFault := false
  validateStatus := true
  validateInfoLog := "validate log"
  attribLocation := fun _ => -1
  activeUniformCount := 0
  activeUniformName := fun _ => ""
  activeUniformType := fun _ => 0
  activeUniformLocation := fun _ => -1
  uniformsLogText := "uniforms section"
  attributesLogText := "attributes section"

/-! Helper lemmas shared by several claim theorems. -/

set_option maxRecDepth 8000

theorem migrateFromOld_getElem? (o : CUniform) (t : List CUniform) (j : Nat) :
    (migrateFromOld o t)[j]? = (t[j]?).map fun neu =>
      if o.name = neu.name ∧ o.type = neu.type then CUniform.withLocation o neu.location
      else neu :=
  List.getElem?_map ..

/-- Entry-wise description of setupRememberedUniformState when the old
table has no duplicate (name, type) pairs: each old entry's payload lands
in every (name, type)-matching new slot, keeping the slot's own location,
and slots without any match are untouched. -/
theorem setupRemembered_spec :
    ∀ (oldT : List CUniform),
      oldT.Pairwise (fun a b => ¬ (a.name = b.name ∧ a.type = b.type)) →
      ∀ (newT : List CUniform) (j : Nat) (u : CUniform), newT[j]? = some u →
        ((∀ o ∈ oldT, o.name = u.name → o.type = u.type →
            (setupRememberedUniformState oldT newT)[j]? =
              some ⟨u.name, u.type, u.location, o.data⟩) ∧
         ((∀ o ∈ oldT, ¬ (o.name = u.name ∧ o.type = u.type)) →
            (setupRememberedUniformState oldT newT)[j]? = some u)) := by
  intro oldT
  induction oldT with
  | nil =>
    intro _ newT j u hu
    refine ⟨?_, ?_⟩
    · intro o ho
      exact absurd ho (List.not_mem_nil o)
    · intro _
      simpa [setupRememberedUniformState] using hu
  | cons o rest ih =>
    intro huniq newT j u hu
    obtain ⟨hhead, hrest⟩ := List.pairwise_cons.mp huniq
    have hstep : setupRememberedUniformState (o :: rest) newT =
        setupRememberedUniformState rest (migrateFromOld o newT) := rfl
    by_cases hm : o.name = u.name ∧ o.type = u.type
    · have hu2 : (migrateFromOld o newT)[j]? =
          some (⟨u.name, u.type, u.location, o.data⟩ : CUniform) := by
        rw [migrateFromOld_getElem?, hu, Option.map_some']
        rw [if_pos hm]
        simp [CUniform.withLocation, hm.1, hm.2]
      have IH := ih hrest (migrateFromOld o newT) j _ hu2
      have hnomatch : ∀ o2 ∈ rest,
          ¬ (o2.name = (⟨u.name, u.type, u.location, o.data⟩ : CUniform).name ∧
             o2.type = (⟨u.name, u.type, u.location, o.data⟩ : CUniform).type) := by
        intro o2 h2 hc
        exact hhead o2 h2 ⟨hm.1.trans hc.1.symm, hm.2.trans hc.2.symm⟩
      have hres : (setupRememberedUniformState (o :: rest) newT)[j]? =
          some (⟨u.name, u.type, u.location, o.data⟩ : CUniform) := by
        rw [hstep]
        exact IH.2 hnomatch
      refine ⟨?_, ?_⟩
      · intro o2 h2 hn ht
        rcases List.mem_cons.mp h2 with h2 | h2
        · subst h2
          exact hres
        · exact (hhead o2 h2 ⟨hm.1.trans hn.symm, hm.2.trans ht.symm⟩).elim
      · intro hno
        exact (hno o (List.mem_cons_self o rest) hm).elim
    · have hu2 : (migrateFromOld o newT)[j]? = some u := by
        rw [migrateFromOld_getElem?, hu, Option.map_some']
        rw [if_neg hm]
      have IH := ih hrest (migrateFromOld o newT) j u hu2
      refine ⟨?_, ?_⟩
      · intro o2 h2 hn ht
        rcases List.mem_cons.mp h2 with h2 | h2
        · subst h2
          exact (hm ⟨hn, ht⟩).elim
        · rw [hstep]
          exact IH.1 o2 h2 hn ht
      · intro hno
        rw [hstep]
        exact IH.2 fun o2 h2 => hno o2 (List.mem_cons_of_mem o h2)

/-! Claim C1. -/

/-- C1: the claim states that construction initializes the payload to the
identity matrix for Mat2/3/4 and to all zero for the Bool family, the Int
family and samplers.  The code contradicts this (and its own doc
comment): the vector-default condition of the constructor is always true,
so cells 0..3 receive 0.1, 0.2, 0.3, 0.4 for every type; a GL_BOOL
payload is not zero, and GL_FLOAT_MAT2 is not the identity (cells 1 and 2
hold 0.2 and 0.3). -/
theorem c1_constructor_default_payload_bug :
    (mkCUniform "flag" GL_BOOL 0).data =
      [mkRat 1 10, mkRat 2 10, mkRat 3 10, mkRat 4 10] ++ List.replicate 12 0 ∧
    (mkCUniform "flag" GL_BOOL 0).data ≠ List.replicate 16 0 ∧
    (mkCUniform "count" GL_INT 0).data ≠ List.replicate 16 0 ∧
    (mkCUniform "tex" GL_SAMPLER_2D 0).data ≠ List.replicate 16 0 ∧
    (mkCUniform "m" GL_FLOAT_MAT2 0).data ≠ [1, 0, 0, 1] ++ List.replicate 12 0 ∧
    (mkCUniform "m" GL_FLOAT_MAT2 0).data =
      [1, mkRat 2 10, mkRat 3 10, 1] ++ List.replicate 12 0 := by
  decide

/-! Claim C2. -/

/-- Driver on which the link step succeeds but validation fails. -/
def c2Driver : Driver := { allOkDriver with validateStatus := false }

/-- C2 counterexample: with a driver whose link succeeds and whose
validation fails, compileAndLink still returns true and the link-status
flag is still true, refuting the claim that link status becomes true only
if both the link and the validate step succeed. -/
theorem c2_counterexample :
    c2Driver.validateStatus = false ∧
    (compileAndLink c2Driver initialShaderState).1 = true ∧
    (compileAndLink c2Driver initialShaderState).2.linked = true := by
  decide

/-- C2 (amended): after the link and the validate requests, the
link-status flag and the returned result equal the link step's success
alone; the validation verdict and both logs are appended to the build
log, but a validation failure does not make link status false. -/
theorem c2_amended_link_status_from_link_step (d : Driver) (s : ShaderState)
    (hf : d.validateFault = false) :
    ∃ s2, linkAndValidateProgram d s = Except.ok (d.linkStatus, s2) ∧
      s2.linked = d.linkStatus ∧
      ("Validation: " ++ (if d.validateStatus then "succeeded" else "failed") ++ "\n")
        ∈ s2.log ∧
      (d.linkInfoLog ++ "\n\n") ∈ s2.log := by
  unfold linkAndValidateProgram
  rw [hf]
  exact ⟨_, rfl, rfl, by simp, by simp⟩

/-- C2 witness: the amended statement applied to the concrete driver of
the counterexample. -/
theorem c2_witness :
    ∃ s2, linkAndValidateProgram c2Driver initialShaderState =
        Except.ok (c2Driver.linkStatus, s2) ∧
      s2.linked = c2Driver.linkStatus ∧
      ("Validation: " ++ (if c2Driver.validateStatus then "succeeded" else "failed") ++ "\n")
        ∈ s2.log ∧
      (c2Driver.linkInfoLog ++ "\n\n") ∈ s2.log :=
  c2_amended_link_status_from_link_step c2Driver initialShaderState rfl

/-! Claim C3. -/

/-- A linked state whose only uniform is the reflected float scalar
"time". -/
def timeState : ShaderState :=
  { initialShaderState with
      linked := true
      program := 1
      activeUniforms := [mkCUniform "time" GL_FLOAT 0] }

/-- A user write aimed at the "time" uniform by name, type and
location. -/
def timeWrite : CUniform := ⟨"time", GL_FLOAT, 0, (5 : ℚ) :: List.replicate 15 0⟩

/-- C3 counterexample: setUniform accepts a write aimed by name at the
"time" float scalar (the stored entry changes), and migration copies an
old "time" payload into a matching new entry, refuting both exclusions
stated by the claim. -/
theorem c3_counterexample :
    (setUniform timeState 0 timeWrite).activeUniforms = [timeWrite] ∧
    setUniform timeState 0 timeWrite ≠ timeState ∧
    setupRememberedUniformState [timeWrite] [mkCUniform "time" GL_FLOAT 4] =
      [CUniform.withLocation timeWrite 4] ∧
    CUniform.withLocation timeWrite 4 ≠ mkCUniform "time" GL_FLOAT 4 := by
  decide

/-- C3 (amended): the "time" float scalar gets no special treatment in
setUniform or in migration — a write matching the stored name, type and
location replaces it like any other entry, and migration copies a
matching old payload into it; instead, bindState recomputes its value
(elapsed milliseconds times 0.001) via updateTimeVariable immediately
before every driver push. -/
theorem c3_amended_time_not_special (s : ShaderState) (i : Nat) (u : CUniform) (e : ℚ)
    (t : List CUniform) (j : Nat) (neu : CUniform)
    (hl : s.linked = true) (hi : (i : Int) < (s.activeUniforms.length : Int))
    (hn : (s.activeUniforms.getD i CUniform.mkDefault).name = u.name)
    (ht : (s.activeUniforms.getD i CUniform.mkDefault).type = u.type)
    (hloc : (s.activeUniforms.getD i CUniform.mkDefault).location = u.location)
    (hty : u.type = GL_FLOAT) (htime : caseInsensitiveEq "time" u.name = true)
    (hj : t[j]? = some neu) (hn2 : u.name = neu.name) (ht2 : u.type = neu.type) :
    setUniform s (i : Int) u = { s with activeUniforms := s.activeUniforms.set i u } ∧
    updateTimeVariable e u = u.setValueAsFloat 0 (e * (1/1000)) ∧
    (migrateFromOld u t)[j]? = some (CUniform.withLocation u neu.location) := by
  refine ⟨?_, ?_, ?_⟩
  · have h1 : ¬ (¬ s.linked = true ∨ (i : Int) < 0 ∨
        (s.activeUniforms.length : Int) ≤ (i : Int)) := by
      push_neg
      exact ⟨hl, Int.natCast_nonneg i, hi⟩
    simp only [setUniform, Int.toNat_natCast]
    rw [if_neg h1, if_neg]
    push_neg
    exact ⟨hn, ht, hloc⟩
  · unfold updateTimeVariable
    rw [if_pos ⟨hty, htime⟩]
  · rw [migrateFromOld_getElem?, hj, Option.map_some']
    rw [if_pos ⟨hn2, ht2⟩]

/-- A linked state holding a "Time" float scalar, exercising the
case-insensitive name match. -/
def timeState2 : ShaderState :=
  { initialShaderState with
      linked := true
      program := 1
      activeUniforms := [mkCUniform "Time" GL_FLOAT 2] }

/-- A write aimed at the "Time" uniform. -/
def timeWrite2 : CUniform := ⟨"Time", GL_FLOAT, 2, (7 : ℚ) :: List.replicate 15 0⟩

/-- C3 witness: the amended statement at a concrete linked state, write
and migration table. -/
theorem c3_witness :
    setUniform timeState2 0 timeWrite2 =
      { timeState2 with activeUniforms := timeState2.activeUniforms.set 0 timeWrite2 } ∧
    updateTimeVariable 2500 timeWrite2 = timeWrite2.setValueAsFloat 0 (2500 * (1/1000)) ∧
    (migrateFromOld timeWrite2 [mkCUniform "Time" GL_FLOAT 9])[0]? =
      some (CUniform.withLocation timeWrite2 9) :=
  c3_amended_time_not_special timeState2 0 timeWrite2 2500 [mkCUniform "Time" GL_FLOAT 9] 0
    (mkCUniform "Time" GL_FLOAT 9) (by decide) (by decide) (by decide) (by decide)
    (by decide) (by decide) (by decide) (by decide) (by decide) (by decide)

/-! Claim C4. -/

/-- C4: migration by (name, type) equality.  For old tables without
duplicate (name, type) pairs, every new entry matching an old entry
receives the old payload while keeping its own (new) location, and every
new entry with no match keeps its reflected default. -/
theorem c4_migration_matches_by_name_and_type (oldT newT : List CUniform)
    (huniq : oldT.Pairwise fun a b => ¬ (a.name = b.name ∧ a.type = b.type))
    (j : Nat) (u : CUniform) (hj : newT[j]? = some u) :
    (∀ o ∈ oldT, o.name = u.name → o.type = u.type →
        (setupRememberedUniformState oldT newT)[j]? =
          some ⟨u.name, u.type, u.location, o.data⟩) ∧
    ((∀ o ∈ oldT, ¬ (o.name = u.name ∧ o.type = u.type)) →
        (setupRememberedUniformState oldT newT)[j]? = some u) :=
  setupRemembered_spec oldT huniq newT j u hj

/-- The old-table entry of the location-churn example: uniform "foo"
(FloatVec3) at location 3 holding (1, 2, 3). -/
def churnOld : CUniform := ⟨"foo", GL_FLOAT_VEC3, 3, [1, 2, 3] ++ List.replicate 13 0⟩

/-- C4 witness: migrating the churn example's old table into a freshly
reflected table where "foo" moved to location 7 yields "foo" at location
7 holding (1, 2, 3). -/
theorem c4_witness :
    (setupRememberedUniformState [churnOld] [mkCUniform "foo" GL_FLOAT_VEC3 7])[0]? =
      some ⟨"foo", GL_FLOAT_VEC3, 7, [1, 2, 3] ++ List.replicate 13 0⟩ :=
  (c4_migration_matches_by_name_and_type [churnOld] [mkCUniform "foo" GL_FLOAT_VEC3 7]
      (List.pairwise_singleton _ _) 0 (mkCUniform "foo" GL_FLOAT_VEC3 7) (by decide)).1
    churnOld (List.mem_singleton.mpr rfl) (by decide) (by decide)

/-! Claim C5. -/

/-- Old entry "a" (Float) holding 5, matched by two duplicate new
entries. -/
def dupOld : CUniform := ⟨"a", GL_FLOAT, 0, (5 : ℚ) :: List.replicate 15 0⟩

/-- C5 counterexample: with duplicate (name, type) entries in the new
table, the inner migration loop has no break, so the second duplicate is
NOT left at its reflected default: it also receives the old payload,
refuting the first-match-only claim. -/
theorem c5_counterexample :
    (setupRememberedUniformState [dupOld]
        [mkCUniform "a" GL_FLOAT 1, mkCUniform "a" GL_FLOAT 2])[1]? =
      some (CUniform.withLocation dupOld 2) ∧
    (setupRememberedUniformState [dupOld]
        [mkCUniform "a" GL_FLOAT 1, mkCUniform "a" GL_FLOAT 2])[1]? ≠
      some (mkCUniform "a" GL_FLOAT 2) := by
  decide

/-- C5 (amended): each old entry's payload is copied into EVERY new
entry with equal name and type, not only the first; later duplicate new
entries also receive the old payload, each keeping its own location. -/
theorem c5_amended_all_matches_receive_copy (oldT newT : List CUniform)
    (huniq : oldT.Pairwise fun a b => ¬ (a.name = b.name ∧ a.type = b.type))
    (o : CUniform) (ho : o ∈ oldT) (j : Nat) (u : CUniform) (hj : newT[j]? = some u)
    (hn : o.name = u.name) (ht : o.type = u.type) :
    (setupRememberedUniformState oldT newT)[j]? =
      some ⟨u.name, u.type, u.location, o.data⟩ :=
  (setupRemembered_spec oldT huniq newT j u hj).1 o ho hn ht

/-- C5 witness: the amended statement at the duplicate-table example,
instantiated at the second (duplicate) new entry. -/
theorem c5_witness :
    (setupRememberedUniformState [dupOld]
        [mkCUniform "a" GL_FLOAT 1, mkCUniform "a" GL_FLOAT 2])[1]? =
      some ⟨"a", GL_FLOAT, 2, dupOld.data⟩ :=
  c5_amended_all_matches_receive_copy [dupOld]
    [mkCUniform "a" GL_FLOAT 1, mkCUniform "a" GL_FLOAT 2]
    (List.pairwise_singleton _ _) dupOld (List.mem_singleton.mpr rfl) 1
    (mkCUniform "a" GL_FLOAT 2) (by decide) (by decide) (by decide)

/-! Claim C6. -/

/-- The two build-log lines one attempted stage contributes (header and
compiler info log); an unattempted stage contributes nothing. -/
def compileSegment (d : Driver) (s : ShaderState) (i : Nat) : List String :=
  if attemptedStage s i then
    ["Compiling " ++ getShaderTypeName i ++ "\n", d.shaderInfoLog i ++ "\n"]
  else []

/-- Shader handles after the stage loop. -/
def stageHandles (d : Driver) (s : ShaderState) : List Nat :=
  let h0 := if attemptedStage s 0 then s.shaders.set 0 (d.createShaderResult 0) else s.shaders
  let h1 := if attemptedStage s 1 then h0.set 1 (d.createShaderResult 1) else h0
  if attemptedStage s 2 then h1.set 2 (d.createShaderResult 2) else h1

theorem if_bool_pair (b : Bool) (x : ShaderState) :
    (if b = true then ((true : Bool), x) else (false, x)) = (b, x) := by
  cases b <;> rfl

/-- Closed form of the stage loop when glCreateShader succeeds for every
stage: the result is the conjunction of the attempted stages' compile
statuses, the log grows by exactly the attempted stages' segments, and
nothing else changes but the stored handles. -/
theorem runStages_spec (d : Driver) (s : ShaderState)
    (h0 : d.createShaderResult 0 ≠ 0) (h1 : d.createShaderResult 1 ≠ 0)
    (h2 : d.createShaderResult 2 ≠ 0) :
    runStages d s =
      ((!attemptedStage s 0 || d.compileStatus 0) &&
        (!attemptedStage s 1 || d.compileStatus 1) &&
        (!attemptedStage s 2 || d.compileStatus 2),
       { s with
           log := s.log ++
             (compileSegment d s 0 ++ compileSegment d s 1 ++ compileSegment d s 2)
           shaders := stageHandles d s }) := by
  cases hg : s.geometryShaderAvailable <;>
    cases he0 : ((s.shaderSources[0]?).getD "").isEmpty <;>
      cases he1 : ((s.shaderSources[1]?).getD "").isEmpty <;>
        cases he2 : ((s.shaderSources[2]?).getD "").isEmpty <;>
          (simp [runStages, compileAndAttachShader, attemptedStage, isShaderTypeAvailable,
            compileSegment, stageHandles, getShaderTypeName, TYPE_VERTEX, TYPE_GEOMETRY,
            TYPE_FRAGMENT, hg, he0, he1, he2, h0, h1, h2, if_bool_pair, List.append_assoc] <;>
            rw [← hg])

/-- C6: when one stage fails to compile, the remaining stages are still
compiled — every attempted stage's header and compiler log land in the
build log — the link step is never reached (the final log consists of
exactly the three stage segments, with no link entry), and the attempt
returns false with the linked flag still cleared. -/
theorem c6_failed_stage_no_early_abort (d : Driver) (s : ShaderState)
    (hprog : d.createProgramResult ≠ 0)
    (hsh0 : d.createShaderResult 0 ≠ 0) (hsh1 : d.createShaderResult 1 ≠ 0)
    (hsh2 : d.createShaderResult 2 ≠ 0)
    (i : Nat) (hi : i < 3) (hatt : attemptedStage s i = true)
    (hfail : d.compileStatus i = false) :
    ∃ s2, compileAndLink2 d s = Except.ok (false, s2) ∧ s2.linked = false ∧
      s2.log = compileSegment d s 0 ++ compileSegment d s 1 ++ compileSegment d s 2 ∧
      ∀ j, j < 3 → attemptedStage s j = true →
        ("Compiling " ++ getShaderTypeName j ++ "\n") ∈ s2.log ∧
        (d.shaderInfoLog j ++ "\n") ∈ s2.log := by
  have hrs := runStages_spec d (preStageState d s) hsh0 hsh1 hsh2
  have hpre0 : attemptedStage (preStageState d s) 0 = attemptedStage s 0 := rfl
  have hpre1 : attemptedStage (preStageState d s) 1 = attemptedStage s 1 := rfl
  have hpre2 : attemptedStage (preStageState d s) 2 = attemptedStage s 2 := rfl
  have hsg0 : compileSegment d (preStageState d s) 0 = compileSegment d s 0 := rfl
  have hsg1 : compileSegment d (preStageState d s) 1 = compileSegment d s 1 := rfl
  have hsg2 : compileSegment d (preStageState d s) 2 = compileSegment d s 2 := rfl
  rw [hpre0, hpre1, hpre2, hsg0, hsg1, hsg2] at hrs
  have hbool : ((!attemptedStage s 0 || d.compileStatus 0) &&
      (!attemptedStage s 1 || d.compileStatus 1) &&
      (!attemptedStage s 2 || d.compileStatus 2)) = false := by
    interval_cases i <;> simp [hatt, hfail]
  have heq : compileAndLink2 d s = Except.ok (false,
      { preStageState d s with
          log := (preStageState d s).log ++
            (compileSegment d s 0 ++ compileSegment d s 1 ++ compileSegment d s 2)
          shaders := stageHandles d (preStageState d s) }) := by
    simp only [compileAndLink2]
    rw [if_neg hprog, hrs]
    dsimp only
    rw [hbool]
    simp
  refine ⟨_, heq, rfl, rfl, ?_⟩
  intro j hj hjatt
  interval_cases j <;>
    simp [compileSegment, hjatt, List.mem_append]

/-- Driver on which only the vertex stage fails to compile. -/
def partialFailDriver : Driver :=
  { allOkDriver with
      shaderInfoLog := fun i => if i = 0 then "0:1: error: bad vertex source" else "stage ok"
      compileStatus := fun i => i != 0 }

/-- State holding a vertex and a fragment source (geometry empty). -/
def twoStageState : ShaderState :=
  { initialShaderState with shaderSources := ["v-src", "", "f-src"] }

/-- C6 witness: the concrete partial-failure scenario. -/
theorem c6_witness :
    ∃ s2, compileAndLink2 partialFailDriver twoStageState = Except.ok (false, s2) ∧
      s2.linked = false ∧
      s2.log = compileSegment partialFailDriver twoStageState 0 ++
        compileSegment partialFailDriver twoStageState 1 ++
        compileSegment partialFailDriver twoStageState 2 ∧
      ∀ j, j < 3 → attemptedStage twoStageState j = true →
        ("Compiling " ++ getShaderTypeName j ++ "\n") ∈ s2.log ∧
        (partialFailDriver.shaderInfoLog j ++ "\n") ∈ s2.log :=
  c6_failed_stage_no_early_abort partialFailDriver twoStageState (by decide) (by decide)
    (by decide) (by decide) 0 (by decide) (by decide) (by decide)

/-! Claim C7. -/

/-- C7: the claim says that with all three stage sources empty,
compileAndLink() returns true and the following bindState() returns
bound = false.  The code creates and links a program object even with no
attached stage (contradicting the interface documentation, which says no
program is generated in that case), so on any driver on which the empty
link succeeds, compileAndLink returns true, the linked flag is set, and
the following bindState binds the empty program and returns true, not
false. -/
theorem c7_empty_sources_bind_returns_true :
    initialShaderState.shaderSources = ["", "", ""] ∧
    (compileAndLink allOkDriver initialShaderState).1 = true ∧
    (compileAndLink allOkDriver initialShaderState).2.linked = true ∧
    (bindState (compileAndLink allOkDriver initialShaderState).2 500).1 = true := by
  decide

/-! Claim C8. -/

/-- Driver whose glValidateProgram throws a driver exception after a
successful link. -/
def faultDriver : Driver := { allOkDriver with validateFault := true }

/-- C8 counterexample: a driver fault thrown during validation — after
the link status was recorded as true — makes compileAndLink return false
and replaces the log with the critical message, but the catch block does
not reset the linked flag, so the subsequent bindState still binds the
program and returns true: the claim fails for fault-terminated
attempts. -/
theorem c8_counterexample :
    (compileAndLink faultDriver initialShaderState).1 = false ∧
    (compileAndLink faultDriver initialShaderState).2.linked = true ∧
    (compileAndLink faultDriver initialShaderState).2.log = criticalErrorLog ∧
    (bindState (compileAndLink faultDriver initialShaderState).2 0).1 = true := by
  decide

theorem compileAndAttachShader_linked (d : Driver) (i : Nat) (s : ShaderState) :
    (compileAndAttachShader d i s).2.linked = s.linked := by
  by_cases hA : isShaderTypeAvailable s i = true
  · by_cases hE : ((s.shaderSources[i]?).getD "").isEmpty = true
    · simp [compileAndAttachShader, hA, hE]
    · by_cases hC : d.createShaderResult i = 0
      · simp [compileAndAttachShader, hA, hE, hC]
      · by_cases hS : d.compileStatus i = true
        · simp [compileAndAttachShader, hA, hE, hC, hS]
        · simp [compileAndAttachShader, hA, hE, hC, hS]
  · simp [compileAndAttachShader, hA]

theorem runStages_linked (d : Driver) (s : ShaderState) :
    (runStages d s).2.linked = s.linked := by
  simp only [runStages]
  rw [compileAndAttachShader_linked, compileAndAttachShader_linked,
    compileAndAttachShader_linked]

theorem linkAndValidateProgram_no_fault (d : Driver) (s : ShaderState)
    (hf : d.validateFault = false) :
    ∀ sE, linkAndValidateProgram d s ≠ Except.error sE := by
  intro sE h
  simp [linkAndValidateProgram, hf] at h

theorem linkAndValidateProgram_ok_linked (d : Driver) (s : ShaderState) (r : Bool)
    (s2 : ShaderState) (h : linkAndValidateProgram d s = Except.ok (r, s2)) :
    s2.linked = r := by
  simp only [linkAndValidateProgram] at h
  by_cases hf : d.validateFault = true
  · rw [if_pos hf] at h
    exact Except.noConfusion h
  · rw [if_neg hf] at h
    simp only [Except.ok.injEq, Prod.mk.injEq] at h
    rw [← h.2, ← h.1]

theorem compileAndLink2_false_not_linked (d : Driver) (s s2 : ShaderState)
    (h : compileAndLink2 d s = Except.ok (false, s2)) : s2.linked = false := by
  simp only [compileAndLink2] at h
  by_cases hc : d.createProgramResult = 0
  · rw [if_pos hc] at h
    simp only [Except.ok.injEq, Prod.mk.injEq] at h
    rw [← h.2]
    rfl
  · rw [if_neg hc] at h
    by_cases ht : (runStages d (preStageState d s)).1 = true
    · rw [if_pos ht] at h
      rcases hlv : linkAndValidateProgram d (runStages d (preStageState d s)).2 with sE | p
      · rw [hlv] at h
        exact Except.noConfusion h
      · rcases p with ⟨r, s4⟩
        rw [hlv] at h
        have h2 : (if r = true then Except.ok (true, postSuccessState d s4)
            else Except.ok (false, s4)) = Except.ok (false, s2) := h
        by_cases hr : r = true
        · rw [if_pos hr] at h2
          simp at h2
        · rw [if_neg hr] at h2
          simp only [Except.ok.injEq, Prod.mk.injEq] at h2
          rw [← h2.2, linkAndValidateProgram_ok_linked d _ r s4 hlv]
          simpa using hr
    · rw [if_neg ht] at h
      simp only [Except.ok.injEq, Prod.mk.injEq] at h
      rw [← h.2, runStages_linked]
      rfl

theorem compileAndLink2_not_error (d : Driver) (s : ShaderState)
    (hf : d.validateFault = false) :
    ∀ sE, compileAndLink2 d s ≠ Except.error sE := by
  intro sE h
  simp only [compileAndLink2] at h
  by_cases hc : d.createProgramResult = 0
  · rw [if_pos hc] at h
    exact Except.noConfusion h
  · rw [if_neg hc] at h
    by_cases ht : (runStages d (preStageState d s)).1 = true
    · rw [if_pos ht] at h
      rcases hlv : linkAndValidateProgram d (runStages d (preStageState d s)).2 with sE2 | p
      · exact linkAndValidateProgram_no_fault d _ hf sE2 hlv
      · rcases p with ⟨r, s4⟩
        rw [hlv] at h
        have h2 : (if r = true then Except.ok (true, postSuccessState d s4)
            else Except.ok (false, s4)) = Except.error sE := h
        cases r <;> simp at h2
    · rw [if_neg ht] at h
      exact Except.noConfusion h

/-- C8 (amended): after any compileAndLink call that returns false and
during which the driver did not fault (no exception reached the catch
block), the linked flag is false, every subsequent bindState returns
bound = false with the empty attribute record and leaves the state
unchanged, setUniform has no effect, and getActiveUniforms returns 0 —
until a later attempt fully succeeds.  A driver fault thrown after the
link status was recorded escapes this guarantee, because the catch block
does not reset the linked flag (see the counterexample). -/
theorem c8_amended_failure_leaves_unbindable (d : Driver) (s : ShaderState)
    (hf : d.validateFault = false) (hfail : (compileAndLink d s).1 = false) :
    (compileAndLink d s).2.linked = false ∧
    (∀ e, bindState (compileAndLink d s).2 e =
      (false, VertexAttribLocations.empty, (compileAndLink d s).2)) ∧
    (∀ idx u, setUniform (compileAndLink d s).2 idx u = (compileAndLink d s).2) ∧
    getActiveUniforms (compileAndLink d s).2 = 0 := by
  rcases hcl : compileAndLink2 d s with sE | p
  · exact absurd hcl (compileAndLink2_not_error d s hf sE)
  · rcases p with ⟨r, s2⟩
    have hc : compileAndLink d s = (r, s2) := by
      unfold compileAndLink
      rw [hcl]
    rw [hc] at hfail ⊢
    have hr : r = false := hfail
    subst hr
    have hlink := compileAndLink2_false_not_linked d s s2 hcl
    refine ⟨hlink, ?_, ?_, ?_⟩
    · intro e
      simp [bindState, hlink]
    · intro idx u
      simp [setUniform, hlink]
    · simp [getActiveUniforms, hlink]

/-- Driver on which every stage fails to compile. -/
def compileFailDriver : Driver := { allOkDriver with compileStatus := fun _ => false }

/-- State with vertex and fragment sources, used for failing attempts. -/
def vfSourcesState : ShaderState :=
  { initialShaderState with shaderSources := ["v-src", "", "f-src"] }

/-- C8 witness: the amended statement at a concrete failing (non-fault)
attempt. -/
theorem c8_witness :
    (compileAndLink compileFailDriver vfSourcesState).2.linked = false ∧
    bindState (compileAndLink compileFailDriver vfSourcesState).2 3 =
      (false, VertexAttribLocations.empty,
        (compileAndLink compileFailDriver vfSourcesState).2) ∧
    setUniform (compileAndLink compileFailDriver vfSourcesState).2 0 CUniform.mkDefault =
      (compileAndLink compileFailDriver vfSourcesState).2 ∧
    getActiveUniforms (compileAndLink compileFailDriver vfSourcesState).2 = 0 := by
  have h := c8_amended_failure_leaves_unbindable compileFailDriver vfSourcesState rfl
    (by decide)
  exact ⟨h.1, h.2.1 3, h.2.2.1 0 CUniform.mkDefault, h.2.2.2⟩

/-! Claim C9. -/

/-- C9: setUniform leaves the table completely unchanged whenever it is
rejected — not linked, index out of range, or the stored entry at the
index differing from the supplied value in name, type or location — and
a value matching all three replaces exactly the entry at that index. -/
theorem c9_mismatched_setUniform_rejected (s : ShaderState) (index : Int) (u : CUniform) :
    ((¬ s.linked = true ∨ index < 0 ∨ (s.activeUniforms.length : Int) ≤ index) →
      setUniform s index u = s) ∧
    (((s.activeUniforms.getD index.toNat CUniform.mkDefault).name ≠ u.name ∨
      (s.activeUniforms.getD index.toNat CUniform.mkDefault).type ≠ u.type ∨
      (s.activeUniforms.getD index.toNat CUniform.mkDefault).location ≠ u.location) →
      setUniform s index u = s) ∧
    (s.linked = true → 0 ≤ index → index < (s.activeUniforms.length : Int) →
      (s.activeUniforms.getD index.toNat CUniform.mkDefault).name = u.name →
      (s.activeUniforms.getD index.toNat CUniform.mkDefault).type = u.type →
      (s.activeUniforms.getD index.toNat CUniform.mkDefault).location = u.location →
      setUniform s index u =
        { s with activeUniforms := s.activeUniforms.set index.toNat u }) := by
  refine ⟨?_, ?_, ?_⟩
  · intro h
    simp only [setUniform]
    rw [if_pos h]
  · intro h
    simp only [setUniform]
    by_cases h1 : ¬ s.linked = true ∨ index < 0 ∨ (s.activeUniforms.length : Int) ≤ index
    · rw [if_pos h1]
    · rw [if_neg h1, if_pos h]
  · intro hl h0 hlen hn ht hloc
    have hA : ¬ (¬ s.linked = true ∨ index < 0 ∨
        (s.activeUniforms.length : Int) ≤ index) := by
      push_neg
      exact ⟨hl, h0, hlen⟩
    have hB : ¬ ((s.activeUniforms.getD index.toNat CUniform.mkDefault).name ≠ u.name ∨
        (s.activeUniforms.getD index.toNat CUniform.mkDefault).type ≠ u.type ∨
        (s.activeUniforms.getD index.toNat CUniform.mkDefault).location ≠ u.location) := by
      push_neg
      exact ⟨hn, ht, hloc⟩
    simp only [setUniform]
    rw [if_neg hA, if_neg hB]

/-- A linked state with one reflected vec4 uniform at location 5. -/
def colorState : ShaderState :=
  { initialShaderState with
      linked := true
      program := 1
      activeUniforms := [mkCUniform "color" GL_FLOAT_VEC4 5] }

/-- A write matching the stored entry in name, type and location. -/
def colorGood : CUniform := ⟨"color", GL_FLOAT_VEC4, 5, [9, 8, 7, 6] ++ List.replicate 12 0⟩

/-- A stale write carrying the pre-relink location 3. -/
def colorStale : CUniform := ⟨"color", GL_FLOAT_VEC4, 3, [9, 8, 7, 6] ++ List.replicate 12 0⟩

/-- C9 witness: the stale-location write is rejected without any effect
and the fully matching write replaces the entry. -/
theorem c9_witness :
    setUniform colorState 0 colorStale = colorState ∧
    setUniform colorState 0 colorGood =
      { colorState with activeUniforms := colorState.activeUniforms.set 0 colorGood } := by
  refine ⟨(c9_mismatched_setUniform_rejected colorState 0 colorStale).2.1 ?_,
    (c9_mismatched_setUniform_rejected colorState 0 colorGood).2.2 ?_ ?_ ?_ ?_ ?_ ?_⟩ <;>
    decide

/-! Claim C10. -/

/-- C10: with the linked flag false, getActiveUniforms returns 0 even if
a table from a previous link is still stored, and getUniform returns the
default-constructed CUniform (empty name, type tag 0, location -1);
getUniform also returns that default for any index outside the table
range.  Both accessors are pure functions of the state, so the stored
table is not modified. -/
theorem c10_accessors_unlinked_defaults (s : ShaderState) (index : Int) :
    (s.linked = false →
      getActiveUniforms s = 0 ∧ ∀ i : Int, getUniform s i = CUniform.mkDefault) ∧
    (¬ (0 ≤ index ∧ index < (s.activeUniforms.length : Int)) →
      getUniform s index = CUniform.mkDefault) ∧
    CUniform.mkDefault.name = "" ∧ CUniform.mkDefault.type = 0 ∧
    CUniform.mkDefault.location = -1 := by
  refine ⟨?_, ?_, rfl, rfl, rfl⟩
  · intro hl
    constructor
    · simp [getActiveUniforms, hl]
    · intro i
      simp [getUniform, hl]
  · intro h
    simp only [getUniform]
    rw [if_neg]
    intro hcon
    exact h ⟨hcon.2.1, hcon.2.2⟩

/-- An unlinked state still holding a table from a previous link. -/
def staleTableState : ShaderState :=
  { initialShaderState with activeUniforms := [mkCUniform "old" GL_FLOAT 0] }

/-- C10 witness: the unlinked accessors at a state with a stored table,
and the out-of-range accessor at a linked state. -/
theorem c10_witness :
    getActiveUniforms staleTableState = 0 ∧
    getUniform staleTableState 0 = CUniform.mkDefault ∧
    getUniform timeState 7 = CUniform.mkDefault := by
  have h1 := c10_accessors_unlinked_defaults staleTableState 0
  have h2 := c10_accessors_unlinked_defaults timeState 7
  exact ⟨(h1.1 rfl).1, (h1.1 rfl).2 0, h2.2.1 (by decide)⟩

end ShaderMaker
